import Mathlib

/-!
Shallow embedding of `src/app.py` (a Dash dashboard for streamflow gauge
model performance) and proofs about its specification claims.

Floating-point quality scores are modelled as `Option ℚ`: `some q` is an
ordinary numeric value, `none` is NaN (every ordered comparison against a
constant is false, exactly as in IEEE semantics, which is the only
floating-point behaviour the categorization code exercises).
-/

/-- A floating-point cell of the station table: `none` models NaN. -/
abbrev FVal := Option ℚ

/-- Strict greater-than against a constant, as pandas evaluates `col > c`
element-wise; NaN compares false. -/
def fgt (v : FVal) (c : ℚ) : Bool :=
  match v with
  | some x => decide (c < x)
  | none => false

/-- Non-strict less-or-equal against a constant, as pandas evaluates
`col <= c` element-wise; NaN compares false. -/
def fle (v : FVal) (c : ℚ) : Bool :=
  match v with
  | some x => decide (x ≤ c)
  | none => false

/-- Category label written by `merged_df['NSE'] = ...` (app.py line 29). -/
def lblNS : String := "Not Satisfactory: NSE < 0.5"

/-- Category label written by the first `.loc` overwrite (app.py line 30). -/
def lblSat : String := "Satisfactory: NSE = 0.5-0.7"

/-- Category label written by the second `.loc` overwrite (app.py line 31). -/
def lblGood : String := "Good: NSE = 0.7-0.8"

/-- Category label written by the third `.loc` overwrite (app.py line 32). -/
def lblVG : String := "Very Good: NSE > 0.8"

/-- One row of `merged_df` before categorization: the columns the app reads
(`gauge_id`, `lat`, `long`, `latitude`, `longitude`, `casr_daymet_era5_NSE`). -/
structure StationRow where
  gauge_id : String
  lat : FVal
  long : FVal
  latitude : FVal
  longitude : FVal
  casr_daymet_era5_NSE : FVal
deriving Repr, DecidableEq

/-- A row of `merged_df` after the categorization block added the `NSE`
column: the original row plus the derived label. -/
structure PreparedRow where
  base : StationRow
  NSE : String
deriving Repr, DecidableEq

/-- The default assignment `merged_df['NSE'] = 'Not Satisfactory: NSE < 0.5'`
(app.py line 29): every row gets the default label. -/
def addDefault (df : List StationRow) : List PreparedRow :=
  df.map (fun r => ⟨r, lblNS⟩)

/-- One `.loc[mask, 'NSE'] = lbl` conditional overwrite: each row whose score
satisfies the mask has its `NSE` cell replaced, all other cells untouched. -/
def overwrite (mask : FVal → Bool) (lbl : String) (df : List PreparedRow) :
    List PreparedRow :=
  df.map (fun r => if mask r.base.casr_daymet_era5_NSE then ⟨r.base, lbl⟩ else r)

/-- Mask of the first `.loc` overwrite (app.py line 30): `0.5 < s ∧ s ≤ 0.7`. -/
def maskSat (v : FVal) : Bool := fgt v (1/2) && fle v (7/10)

/-- Mask of the second `.loc` overwrite (app.py line 31): `0.7 < s ∧ s ≤ 0.8`. -/
def maskGood (v : FVal) : Bool := fgt v (7/10) && fle v (4/5)

/-- Mask of the third `.loc` overwrite (app.py line 32): `0.8 < s`. -/
def maskVG (v : FVal) : Bool := fgt v (4/5)

/-- The complete categorization block of app.py lines 29-32: default label,
then three sequential conditional overwrites. -/
def prepare (df : List StationRow) : List PreparedRow :=
  overwrite maskVG lblVG (overwrite maskGood lblGood
    (overwrite maskSat lblSat (addDefault df)))

/-- The per-row effect of the categorization block on one score value. -/
def categorize (v : FVal) : String :=
  let c1 := lblNS
  let c2 := if maskSat v then lblSat else c1
  let c3 := if maskGood v then lblGood else c2
  if maskVG v then lblVG else c3

theorem prepare_eq_map (df : List StationRow) :
    prepare df = df.map (fun r => ⟨r, categorize r.casr_daymet_era5_NSE⟩) := by
  simp only [prepare, overwrite, addDefault, List.map_map, categorize]
  refine List.map_congr_left (fun r _ => ?_)
  simp only [Function.comp]
  by_cases h1 : maskSat r.casr_daymet_era5_NSE <;>
    by_cases h2 : maskGood r.casr_daymet_era5_NSE <;>
      by_cases h3 : maskVG r.casr_daymet_era5_NSE <;>
        simp [h1, h2, h3]

theorem categorize_some (s : ℚ) :
    categorize (some s) =
      if s ≤ 1/2 then lblNS
      else if s ≤ 7/10 then lblSat
      else if s ≤ 4/5 then lblGood
      else lblVG := by
  simp only [categorize, maskSat, maskGood, maskVG, fgt, fle, Bool.and_eq_true,
    decide_eq_true_eq]
  split_ifs <;>
    first
      | rfl
      | linarith
      | (exfalso
         simp only [not_and_or, not_lt, not_le] at *
         casesm* _ ∨ _ <;> linarith)

theorem categorize_mem (v : FVal) :
    categorize v = lblNS ∨ categorize v = lblSat ∨
      categorize v = lblGood ∨ categorize v = lblVG := by
  simp only [categorize]
  by_cases h1 : maskSat v <;> by_cases h2 : maskGood v <;>
    by_cases h3 : maskVG v <;> simp [h1, h2, h3]

/-- A Python value as it appears in the Dash click payload: `noneV` is
Python None; dict keys are strings (as in Dash event payloads). -/
inductive PyVal where
  | noneV : PyVal
  | str : String → PyVal
  | int : Int → PyVal
  | list : List PyVal → PyVal
  | dict : List (String × PyVal) → PyVal

/-- Python truthiness, as tested by `if not clickData` (app.py line 95). -/
def truthy : PyVal → Bool
  | .noneV => false
  | .str s => !(s == "")
  | .int n => !(n == 0)
  | .list xs => !xs.isEmpty
  | .dict kvs => !kvs.isEmpty

/-- Truthiness of the optional click payload (absent maps to falsy). -/
def truthyOpt : Option PyVal → Bool
  | none => false
  | some v => truthy v

/-- A single quote character, used by the Python repr of strings. -/
def pyQuote : String := String.singleton (Char.ofNat 39)

mutual

/-- Python `repr` of a value, as used by `str(KeyError(k))` and by
f-string interpolation of non-string values. -/
def pyRepr : PyVal → String
  | .noneV => "None"
  | .str s => pyQuote ++ s ++ pyQuote
  | .int n => toString n
  | .list xs => "[" ++ String.intercalate (", ") (pyReprList xs) ++ "]"
  | .dict kvs => "\x7b" ++ String.intercalate (", ") (pyReprKVs kvs) ++ "\x7d"

/-- Reprs of the elements of a Python list. -/
def pyReprList : List PyVal → List String
  | [] => []
  | v :: vs => pyRepr v :: pyReprList vs

/-- Reprs of the key-value pairs of a Python dict. -/
def pyReprKVs : List (String × PyVal) → List String
  | [] => []
  | (k, v) :: rest => (pyQuote ++ k ++ pyQuote ++ ": " ++ pyRepr v) :: pyReprKVs rest

end

/-- Python `str` of a value, as used by f-string interpolation
(`f"... {gauge_id} ..."`): strings stay as they are, everything else reprs. -/
def pyStr : PyVal → String
  | .str s => s
  | v => pyRepr v

/-- A Python exception raised by the subscript and lookup operations the
handler performs. -/
inductive PyError where
  | keyError : PyVal → PyError
  | indexError : String → PyError
  | typeError : String → PyError

/-- Python `str` of an exception, as interpolated by `f"...: {e}"`:
`str(KeyError(k))` is `repr(k)`; the others carry their message. -/
def pyErrStr : PyError → String
  | .keyError k => pyRepr k
  | .indexError m => m
  | .typeError m => m

/-- First-match lookup in a string-keyed Python dict. -/
def dictGet : List (String × PyVal) → String → Option PyVal
  | [], _ => none
  | (k, v) :: rest, s => if k == s then some v else dictGet rest s

/-- Python subscript `v[k]`, covering the value shapes a click payload can
contain: dict lookup (KeyError when missing, TypeError on unhashable keys),
list and string indexing with negative-index wrapping (IndexError out of
range), TypeError on non-subscriptable bases. -/
def pySub (v k : PyVal) : Except PyError PyVal :=
  match v with
  | .dict kvs =>
    match k with
    | .str s =>
      match dictGet kvs s with
      | some w => .ok w
      | none => .error (.keyError k)
    | .int _ => .error (.keyError k)
    | .noneV => .error (.keyError k)
    | .list _ => .error (.typeError ("unhashable type: list"))
    | .dict _ => .error (.typeError ("unhashable type: dict"))
  | .list xs =>
    match k with
    | .int i =>
      let j : Int := if i < 0 then i + xs.length else i
      if j < 0 then .error (.indexError ("list index out of range"))
      else
        match xs[j.toNat]? with
        | some w => .ok w
        | none => .error (.indexError ("list index out of range"))
    | _ => .error (.typeError ("list indices must be integers or slices"))
  | .str s =>
    match k with
    | .int i =>
      let j : Int := if i < 0 then i + s.length else i
      if j < 0 then .error (.indexError ("string index out of range"))
      else
        match s.data[j.toNat]? with
        | some c => .ok (.str (String.mk [c]))
        | none => .error (.indexError ("string index out of range"))
    | _ => .error (.typeError ("string indices must be integers"))
  | .int _ => .error (.typeError ("int object is not subscriptable"))
  | .noneV => .error (.typeError ("NoneType object is not subscriptable"))

/-- The identifier extraction of app.py line 98:
`clickData['points'][0]['customdata'][0]`. It sits outside the `try` block. -/
def extractGaugeId (cd : PyVal) : Except PyError PyVal := do
  let pts ← pySub cd (.str ("points"))
  let p0 ← pySub pts (.int 0)
  let cds ← pySub p0 (.str ("customdata"))
  pySub cds (.int 0)

/-- Modelled from the spec: the Results Store pickle itself is not under
src/; per the spec it holds, per station and per temporal resolution (fixed
at a single daily resolution, keys `1D` then `xr`), a time-indexed pair of
sequences of observed and simulated flow aligned on a shared time axis.
One row is (date, observed flow, simulated flow). -/
structure XrDataset where
  rows : List (String × ℚ × ℚ)

/-- Modelled from the spec: the per-station nested structure of the Results
Store; navigating `['1D']['xr']` reaches the daily dataset. -/
structure Station where
  xr1D : XrDataset

/-- The Results Store: a mapping from station identifier to its data. -/
abbrev ResultsStore := List (String × Station)

/-- First-match lookup of a station identifier in the Results Store. -/
def storeGet : ResultsStore → String → Option Station
  | [], _ => none
  | (k, v) :: rest, s => if k == s then some v else storeGet rest s

/-- The dict lookup `results[gauge_id]` of app.py line 101: a missing key
raises KeyError; an unhashable key raises TypeError. -/
def lookupStation (res : ResultsStore) (gid : PyVal) : Except PyError Station :=
  match gid with
  | .str s =>
    match storeGet res s with
    | some st => .ok st
    | none => .error (.keyError gid)
  | .int _ => .error (.keyError gid)
  | .noneV => .error (.keyError gid)
  | .list _ => .error (.typeError ("unhashable type: list"))
  | .dict _ => .error (.typeError ("unhashable type: dict"))

/-- App.py lines 101-109: look up the station, navigate to the daily
dataset, select the last time step of the observed and simulated series
(`isel(time_step=-1)`, IndexError on an empty axis), and assemble the
single-row frame of (date, observed, simulated) that gets plotted. -/
def chartData (res : ResultsStore) (gid : PyVal) :
    Except PyError (List (String × ℚ × ℚ)) := do
  let st ← lookupStation res gid
  match st.xr1D.rows.getLast? with
  | some row => .ok [row]
  | none => .error (.indexError ("index -1 is out of bounds for axis 0 with size 0"))

/-- Bytes of a string (code points truncated to bytes). -/
def strBytes (s : String) : List Nat := s.data.map (fun c => c.toNat % 256)

/-- Byte serialization of one plotted row. -/
def rowBytes (r : String × ℚ × ℚ) : List Nat :=
  strBytes r.1 ++ strBytes (toString r.2.1) ++ strBytes (toString r.2.2)

/-- Model of the matplotlib rendering of app.py lines 111-121 followed by
`savefig(buf, format="png")`: a deterministic byte serialization of the
chart contents (PNG signature, then the title, then the plotted rows). -/
def renderPng (title : String) (rows : List (String × ℚ × ℚ)) : List Nat :=
  [137, 80, 78, 71, 13, 10, 26, 10] ++ strBytes title ++ (rows.map rowBytes).flatten

/-- The chart title of app.py line 114: `f"Streamflow at Gauge {gauge_id}"`. -/
def chartTitle (g : String) : String := "Streamflow at Gauge " ++ g

/-- Character of the base64 alphabet at index n (0-63). -/
def b64c (n : Nat) : Char :=
  if n < 26 then Char.ofNat (65 + n)
  else if n < 52 then Char.ofNat (97 + (n - 26))
  else if n < 62 then Char.ofNat (48 + (n - 52))
  else if n = 62 then Char.ofNat 43
  else Char.ofNat 47

/-- Standard base64 encoding of a byte list, three bytes to four characters
with `=` padding (the character with code 61). -/
def b64chunks : List Nat → List Char
  | [] => []
  | [a] => [b64c (a % 256 / 4), b64c (a % 4 * 16), Char.ofNat 61, Char.ofNat 61]
  | [a, b] =>
      [b64c (a % 256 / 4), b64c (a % 4 * 16 + b % 256 / 16),
        b64c (b % 16 * 4), Char.ofNat 61]
  | a :: b :: c :: rest =>
      b64c (a % 256 / 4) :: b64c (a % 4 * 16 + b % 256 / 16) ::
        b64c (b % 16 * 4 + c % 256 / 64) :: b64c (c % 64) :: b64chunks rest

/-- The `base64.b64encode(...).decode("utf-8")` of app.py line 123. -/
def base64Encode (bs : List Nat) : String := String.mk (b64chunks bs)

/-- The matplotlib global state the handler touches: the registry of open
figure numbers (`plt.subplots` registers a fresh figure, `plt.close`
removes it). -/
structure PltState where
  openFigs : List Nat
deriving Repr, DecidableEq

/-- Figure number matplotlib assigns to a new figure: one past the largest
open figure number. -/
def freshFig (figs : List Nat) : Nat := figs.foldr max 0 + 1

/-- The matplotlib state at process start: no open figures. -/
def pltInit : PltState := ⟨[]⟩

/-- A Dash UI fragment returned by the callback: `html.Div` text or an
`html.Img` with a src attribute. -/
inductive Fragment where
  | div : String → Fragment
  | img : String → Fragment
deriving Repr, DecidableEq

/-- The static placeholder of app.py line 96. -/
def placeholderText : String := "Click a gauge on the map to view the streamflow."

/-- The error text of app.py line 127:
`f"Error loading streamflow for gauge {gauge_id}: {e}"`. -/
def errText (gid : PyVal) (e : PyError) : String :=
  "Error loading streamflow for gauge " ++ pyStr gid ++ ": " ++ pyErrStr e

/-- The callback `update_plot` of app.py lines 94-127 with the matplotlib
figure registry passed explicitly. The falsy test mirrors line 95; the
identifier extraction (line 98) sits outside the `try`, so its exceptions
escape as `.error`; every failure inside the `try` (lines 100-125) becomes
the textual error fragment of line 127; on success the handler opens a
fresh figure, renders, base64-encodes, closes the figure, and returns a
data-URI image fragment. -/
def update_plot_st (st : PltState) (res : ResultsStore)
    (clickData : Option PyVal) : Except PyError Fragment × PltState :=
  match clickData with
  | none => (.ok (.div placeholderText), st)
  | some cd =>
    if truthy cd then
      match extractGaugeId cd with
      | .error e => (.error e, st)
      | .ok gid =>
        match chartData res gid with
        | .error e => (.ok (.div (errText gid e)), st)
        | .ok rows =>
          let fid := freshFig st.openFigs
          let opened := st.openFigs ++ [fid]
          let png := renderPng (chartTitle (pyStr gid)) rows
          let closed := opened.erase fid
          (.ok (.img ("data:image/png;base64," ++ base64Encode png)), ⟨closed⟩)
    else (.ok (.div placeholderText), st)

/-- The callback as Dash invokes it, starting from the initial matplotlib
state. -/
def update_plot (res : ResultsStore) (clickData : Option PyVal) :
    Except PyError Fragment :=
  (update_plot_st pltInit res clickData).1

/-- The `color_discrete_map` of app.py lines 44-49. -/
def colorMap (l : String) : Option String :=
  if l = lblNS then some ("red")
  else if l = lblSat then some ("yellow")
  else if l = lblGood then some ("lightgreen")
  else if l = lblVG then some ("green")
  else none

/-- Plotly default trace color, used for a category value missing from the
discrete color map. -/
def defaultColor : String := "#636efa"

/-- One marker of the `px.scatter_mapbox` figure (app.py lines 38-51):
position from `lat`/`long`, color from the `NSE` category through the
discrete color map, hover data `gauge_id` and the raw score. -/
structure MapPoint where
  lat : FVal
  lon : FVal
  color : String
  hover_gauge_id : String
  hover_score : FVal
deriving Repr, DecidableEq

/-- The map view: one marker per row of the prepared station table. -/
def buildMap (df : List PreparedRow) : List MapPoint :=
  df.map (fun r =>
    ⟨r.base.lat, r.base.long, (colorMap r.NSE).getD defaultColor,
      r.base.gauge_id, r.base.casr_daymet_era5_NSE⟩)

theorem le_foldr_max (l : List Nat) : ∀ x ∈ l, x ≤ l.foldr max 0 := by
  induction l with
  | nil => intro x hx; cases hx
  | cons a as ih =>
    intro x hx
    rcases List.mem_cons.mp hx with rfl | hx
    · exact Nat.le_max_left _ _
    · exact le_trans (ih _ hx) (Nat.le_max_right _ _)

theorem freshFig_not_mem (l : List Nat) : freshFig l ∉ l := by
  intro h
  have := le_foldr_max l _ h
  simp only [freshFig] at this
  omega

theorem erase_append_not_mem (l : List Nat) (x : Nat) (h : x ∉ l) :
    (l ++ [x]).erase x = l := by
  induction l with
  | nil => simp
  | cons a as ih =>
    have hax : ¬(a == x) = true := by
      simp only [beq_iff_eq]
      rintro rfl
      exact h (List.mem_cons_self a as)
    have h2 : x ∉ as := fun hm => h (List.mem_cons_of_mem _ hm)
    simp [List.cons_append, List.erase_cons, hax, ih h2]

theorem erase_append_fresh (l : List Nat) :
    (l ++ [freshFig l]).erase (freshFig l) = l :=
  erase_append_not_mem l (freshFig l) (freshFig_not_mem l)

theorem b64chunks_ne_nil (bs : List Nat) (h : bs ≠ []) : b64chunks bs ≠ [] := by
  match bs with
  | [] => exact absurd rfl h
  | [a] => simp [b64chunks]
  | [a, b] => simp [b64chunks]
  | a :: b :: c :: rest => simp [b64chunks]

theorem base64Encode_ne_empty (bs : List Nat) (h : bs ≠ []) :
    base64Encode bs ≠ "" := by
  intro hEq
  apply b64chunks_ne_nil bs h
  have := congrArg String.data hEq
  simpa [base64Encode] using this

theorem renderPng_ne_nil (title : String) (rows : List (String × ℚ × ℚ)) :
    renderPng title rows ≠ [] := by
  simp [renderPng]

theorem errText_ne_placeholder (g : PyVal) (e : PyError) :
    errText g e ≠ placeholderText := by
  intro h
  have hd : (errText g e).data = placeholderText.data := congrArg String.data h
  rw [errText] at hd
  rw [String.data_append, String.data_append, String.data_append] at hd
  simp only [List.append_assoc] at hd
  have h1 := congrArg List.head? hd
  rw [List.head?_append_of_ne_nil _ (by decide)] at h1
  exact absurd h1 (by decide)

/-- C1: for every quality score s the derived category is exactly one of the
four labels, assigned as s ≤ 0.5 → Not Satisfactory, 0.5 < s ≤ 0.7 →
Satisfactory, 0.7 < s ≤ 0.8 → Good, 0.8 < s → Very Good; in particular the
boundary values 0.5, 0.7 and 0.8 fall into the lower bucket. -/
theorem C1_category_mapping (s : ℚ) :
    (categorize (some s) = lblNS ↔ s ≤ 1/2) ∧
    (categorize (some s) = lblSat ↔ 1/2 < s ∧ s ≤ 7/10) ∧
    (categorize (some s) = lblGood ↔ 7/10 < s ∧ s ≤ 4/5) ∧
    (categorize (some s) = lblVG ↔ 4/5 < s) ∧
    (categorize (some ((1:ℚ)/2)) = lblNS ∧
      categorize (some ((7:ℚ)/10)) = lblSat ∧
      categorize (some ((4:ℚ)/5)) = lblGood) := by
  have hb1 : categorize (some ((1:ℚ)/2)) = lblNS := by
    rw [categorize_some]
    norm_num
  have hb2 : categorize (some ((7:ℚ)/10)) = lblSat := by
    rw [categorize_some]
    norm_num
  have hb3 : categorize (some ((4:ℚ)/5)) = lblGood := by
    rw [categorize_some]
    norm_num
  rw [categorize_some]
  refine ⟨?_, ?_, ?_, ?_, hb1, hb2, hb3⟩ <;>
    split_ifs with h1 h2 h3 <;>
      first
        | (refine iff_of_true rfl ?_
           first
             | linarith
             | exact ⟨by linarith, by linarith⟩)
        | (refine iff_of_false (by decide) ?_
           intro hP
           first
             | linarith
             | (rcases hP with ⟨hA, hB⟩
                linarith))

/-- C9: the categorization is total over all score values including NaN:
a NaN score keeps the default label Not Satisfactory, and every row gets
one of the four labels. -/
theorem C9_nan_and_totality :
    categorize none = lblNS ∧
    ∀ v : FVal, categorize v = lblNS ∨ categorize v = lblSat ∨
      categorize v = lblGood ∨ categorize v = lblVG :=
  ⟨rfl, categorize_mem⟩

/-- C8: dataset preparation adds exactly one derived column via the four
sequential conditional overwrites and changes nothing else: the rows come
back in the same order and every pre-existing column is untouched. -/
theorem C8_frame_preserved (df : List StationRow) :
    (prepare df).map PreparedRow.base = df ∧
    (prepare df).length = df.length ∧
    (prepare df).map PreparedRow.NSE =
      df.map (fun r => categorize r.casr_daymet_era5_NSE) := by
  refine ⟨?_, ?_, ?_⟩ <;>
    simp [prepare_eq_map, List.map_map, Function.comp_def]

/-- C5: a null/absent click event yields the exact same static placeholder
fragment, whatever the loaded datasets and the matplotlib state are. -/
theorem C5_placeholder_on_idle (res : ResultsStore) (st : PltState) :
    update_plot_st st res none = (.ok (.div placeholderText), st) := rfl

theorem colorMap_categorize (v : FVal) :
    some ((colorMap (categorize v)).getD defaultColor) = colorMap (categorize v) ∧
    ((colorMap (categorize v)).getD defaultColor = "red" ∨
      (colorMap (categorize v)).getD defaultColor = "yellow" ∨
      (colorMap (categorize v)).getD defaultColor = "lightgreen" ∨
      (colorMap (categorize v)).getD defaultColor = "green") := by
  rcases categorize_mem v with h | h | h | h <;> rw [h] <;> decide

/-- C7: the map visualization has exactly one marker per row of the station
table, and each marker carries the color the discrete color map assigns to
that row category, one of the four fixed values red, yellow, lightgreen and
green. -/
theorem C7_map_markers (df : List StationRow) :
    (buildMap (prepare df)).length = df.length ∧
    List.Forall₂
      (fun (r : PreparedRow) (p : MapPoint) =>
        some p.color = colorMap r.NSE ∧
        (p.color = "red" ∨ p.color = "yellow" ∨
          p.color = "lightgreen" ∨ p.color = "green"))
      (prepare df) (buildMap (prepare df)) := by
  constructor
  · simp [buildMap, prepare_eq_map]
  · rw [buildMap, List.forall₂_map_right_iff, List.forall₂_same]
    intro r hr
    rw [prepare_eq_map] at hr
    obtain ⟨r0, _, rfl⟩ := List.mem_map.mp hr
    exact colorMap_categorize r0.casr_daymet_era5_NSE

/-- C10: the handler returns the placeholder fragment if and only if the
click payload is falsy (absent, None, or an empty container); every truthy
payload proceeds past the placeholder branch to identifier extraction. -/
theorem C10_placeholder_iff_falsy (res : ResultsStore) (cd : Option PyVal) :
    (update_plot res cd = .ok (.div placeholderText)) ↔ truthyOpt cd = false := by
  rcases cd with _ | v
  · simp [update_plot, update_plot_st, truthyOpt]
  · simp only [update_plot, update_plot_st, truthyOpt]
    by_cases ht : truthy v
    · rw [if_pos ht]
      rcases hX : extractGaugeId v with e | gid
      · simp [hX, ht]
      · rcases hC : chartData res gid with e | rows
        · simp [hX, hC, ht, errText_ne_placeholder gid e]
        · simp [hX, hC, ht]
    · have ht' : truthy v = false := by simpa using ht
      simp [ht']

/-- C6: the handler is a deterministic function of its payload with no
hidden state mutation: one invocation returns the matplotlib figure
registry exactly as it found it, a second invocation with the same payload
returns the identical fragment, and the fragment does not depend on the
registry state at all. -/
theorem C6_deterministic_stateless (res : ResultsStore) (cd : Option PyVal)
    (st : PltState) :
    (update_plot_st st res cd).2 = st ∧
    (update_plot_st (update_plot_st st res cd).2 res cd).1 =
      (update_plot_st st res cd).1 ∧
    (update_plot_st st res cd).1 = update_plot res cd := by
  have hst : ∀ s : PltState, (update_plot_st s res cd).2 = s := by
    intro s
    rcases cd with _ | v
    · rfl
    · simp only [update_plot_st]
      by_cases ht : truthy v
      · rw [if_pos ht]
        rcases hX : extractGaugeId v with e | gid
        · rfl
        · simp only []
          rcases hC : chartData res gid with e | rows
        
          · rfl
          · cases s with
            | mk figs => simp [erase_append_fresh]
      · rw [if_neg ht]
  have hout : ∀ s1 s2 : PltState,
      (update_plot_st s1 res cd).1 = (update_plot_st s2 res cd).1 := by
    intro s1 s2
    rcases cd with _ | v
    · rfl
    · simp only [update_plot_st]
      by_cases ht : truthy v
      · simp only [ht, if_true]
        rcases hX : extractGaugeId v with e | gid
        · rfl
        · simp only []
          rcases hC : chartData res gid with e | rows <;> rfl
      · have ht' : truthy v = false := by simpa using ht
        simp only [ht', Bool.false_eq_true, if_false]
  refine ⟨hst st, ?_, hout st pltInit⟩
  rw [hst st]

/-- C2 as stated is false: a truthy click payload without a points key makes
the identifier extraction of app.py line 98, which sits outside the try
block, raise a KeyError that the handler propagates instead of converting
to an error fragment. -/
theorem C2_counterexample_extraction_escapes :
    update_plot [] (some (PyVal.dict [("a", PyVal.int 1)])) =
      Except.error (PyError.keyError (PyVal.str ("points"))) := rfl

/-- C2 amended: for every click payload from which the identifier
extraction of line 98 succeeds, the handler never propagates an exception:
any failure inside the try block (Results Store lookup, series selection,
rendering) is caught and converted into a textual error fragment carrying
the station identifier and the failure message. Failures during the
extraction itself, which happens before the try block, still propagate. -/
theorem C2_amended_try_block_catches (res : ResultsStore) (cd gid : PyVal)
    (hT : truthy cd = true) (hX : extractGaugeId cd = .ok gid) :
    (∃ frag, update_plot res (some cd) = .ok frag) ∧
    (∀ e, chartData res gid = .error e →
      update_plot res (some cd) = .ok (.div (errText gid e)) ∧
      errText gid e = "Error loading streamflow for gauge " ++ pyStr gid ++
        ": " ++ pyErrStr e) := by
  constructor
  · rcases hC : chartData res gid with e | rows
    · exact ⟨.div (errText gid e),
        by simp [update_plot, update_plot_st, hT, hX, hC]⟩
    · exact ⟨.img ("data:image/png;base64," ++
          base64Encode (renderPng (chartTitle (pyStr gid)) rows)),
        by simp [update_plot, update_plot_st, hT, hX, hC]⟩
  · intro e hC
    exact ⟨by simp [update_plot, update_plot_st, hT, hX, hC], rfl⟩

/-- Concrete instance of the amended C2: a well-formed click on a station
missing from an empty Results Store produces an error fragment, not an
exception. -/
theorem C2_amended_witness :
    truthy (PyVal.dict [("points",
      PyVal.list [PyVal.dict [("customdata",
        PyVal.list [PyVal.str ("G1")])]])]) = true ∧
    extractGaugeId (PyVal.dict [("points",
      PyVal.list [PyVal.dict [("customdata",
        PyVal.list [PyVal.str ("G1")])]])]) = .ok (PyVal.str ("G1")) ∧
    ((∃ frag, update_plot [] (some (PyVal.dict [("points",
        PyVal.list [PyVal.dict [("customdata",
          PyVal.list [PyVal.str ("G1")])]])])) = .ok frag) ∧
     (∀ e, chartData [] (PyVal.str ("G1")) = .error e →
       update_plot [] (some (PyVal.dict [("points",
         PyVal.list [PyVal.dict [("customdata",
           PyVal.list [PyVal.str ("G1")])]])])) =
         .ok (.div (errText (PyVal.str ("G1")) e)) ∧
       errText (PyVal.str ("G1")) e =
         "Error loading streamflow for gauge " ++ pyStr (PyVal.str ("G1")) ++
           ": " ++ pyErrStr e)) :=
  ⟨rfl, rfl, C2_amended_try_block_catches [] _ _ rfl rfl⟩

/-- C3: for a station present in the Results Store whose daily data has at
least one time step, a click on it returns an image fragment whose base64
payload is non-empty and whose chart holds exactly one observed/simulated
pair, the final time step, never the full history. -/
theorem C3_last_step_only_image (res : ResultsStore) (cd : PyVal) (s : String)
    (stn : Station) (row : String × ℚ × ℚ)
    (hT : truthy cd = true) (hX : extractGaugeId cd = .ok (.str s))
    (hS : storeGet res s = some stn)
    (hL : stn.xr1D.rows.getLast? = some row) :
    update_plot res (some cd) =
      .ok (.img ("data:image/png;base64," ++
        base64Encode (renderPng (chartTitle s) [row]))) ∧
    base64Encode (renderPng (chartTitle s) [row]) ≠ "" := by
  have hC : chartData res (.str s) = .ok [row] := by
    simp [chartData, lookupStation, hS, hL, Bind.bind, Except.bind]
  constructor
  · simp [update_plot, update_plot_st, hT, hX, hC, pyStr]
  · exact base64Encode_ne_empty _ (renderPng_ne_nil _ _)

/-- Concrete instance of C3: one station with a single daily time step,
clicked, yields the single-pair image fragment. -/
theorem C3_witness :
    truthy (PyVal.dict [("points",
      PyVal.list [PyVal.dict [("customdata",
        PyVal.list [PyVal.str ("G1")])]])]) = true ∧
    extractGaugeId (PyVal.dict [("points",
      PyVal.list [PyVal.dict [("customdata",
        PyVal.list [PyVal.str ("G1")])]])]) = .ok (PyVal.str ("G1")) ∧
    storeGet [("G1", Station.mk (XrDataset.mk [("2020-01-01", (1:ℚ), (2:ℚ))]))]
      ("G1") = some (Station.mk (XrDataset.mk [("2020-01-01", (1:ℚ), (2:ℚ))])) ∧
    (Station.mk (XrDataset.mk
      [("2020-01-01", (1:ℚ), (2:ℚ))])).xr1D.rows.getLast? =
      some ("2020-01-01", (1:ℚ), (2:ℚ)) ∧
    (update_plot [("G1", Station.mk (XrDataset.mk
        [("2020-01-01", (1:ℚ), (2:ℚ))]))]
      (some (PyVal.dict [("points",
        PyVal.list [PyVal.dict [("customdata",
          PyVal.list [PyVal.str ("G1")])]])])) =
      .ok (.img ("data:image/png;base64," ++
        base64Encode (renderPng (chartTitle ("G1"))
          [("2020-01-01", (1:ℚ), (2:ℚ))]))) ∧
      base64Encode (renderPng (chartTitle ("G1"))
        [("2020-01-01", (1:ℚ), (2:ℚ))]) ≠ "") :=
  ⟨rfl, rfl, rfl, rfl, C3_last_step_only_image _ _ _ _ _ rfl rfl rfl rfl⟩

/-- C4: clicking a station identifier absent from the Results Store yields a
textual error fragment whose text contains that identifier, and no image
fragment. -/
theorem C4_missing_station_error (res : ResultsStore) (cd : PyVal) (s : String)
    (hT : truthy cd = true) (hX : extractGaugeId cd = .ok (.str s))
    (hS : storeGet res s = none) :
    update_plot res (some cd) =
      .ok (.div (errText (.str s) (.keyError (.str s)))) ∧
    ∃ pre post, errText (.str s) (.keyError (.str s)) = pre ++ s ++ post := by
  have hC : chartData res (.str s) = .error (.keyError (.str s)) := by
    simp [chartData, lookupStation, hS, Bind.bind, Except.bind]
  constructor
  · simp [update_plot, update_plot_st, hT, hX, hC]
  · refine ⟨"Error loading streamflow for gauge ",
      ": " ++ pyErrStr (.keyError (.str s)), ?_⟩
    show errText (.str s) (.keyError (.str s)) = _
    rw [errText]
    rw [String.append_assoc]
    rfl

/-- Concrete instance of C4: clicking a station that an empty Results Store
does not contain yields the error fragment naming it. -/
theorem C4_witness :
    truthy (PyVal.dict [("points",
      PyVal.list [PyVal.dict [("customdata",
        PyVal.list [PyVal.str ("G9")])]])]) = true ∧
    extractGaugeId (PyVal.dict [("points",
      PyVal.list [PyVal.dict [("customdata",
        PyVal.list [PyVal.str ("G9")])]])]) = .ok (PyVal.str ("G9")) ∧
    storeGet [] ("G9") = none ∧
    (update_plot [] (some (PyVal.dict [("points",
        PyVal.list [PyVal.dict [("customdata",
          PyVal.list [PyVal.str ("G9")])]])])) =
      .ok (.div (errText (.str ("G9")) (.keyError (.str ("G9"))))) ∧
     ∃ pre post,
       errText (.str ("G9")) (.keyError (.str ("G9"))) = pre ++ "G9" ++ post) :=
  ⟨rfl, rfl, rfl, C4_missing_station_error _ _ _ rfl rfl rfl⟩
